import Mathlib

/-!
Verification of the plugin-lightning channel manager against its source.

The TypeScript source is embedded shallowly: each relevant function becomes a
Lean definition over explicit data.  Optional object fields become Option
values (none meaning the key is absent), and JavaScript truthiness tests on
those fields are modelled by the truthy* functions below (a string is falsy
when absent or empty, a number when absent or zero, a boolean when absent or
false).  Fallible operations return Except String, mirroring thrown errors.
Backend RPC calls are abstracted as function arguments; the payload value a
function passes to such an argument is exactly the object the source builds
and hands to the astra-lightning call.
-/

namespace PluginLightning

/-- JavaScript truthiness of an optional string field: present and non-empty. -/
def truthyStr : Option String → Bool
  | some s => s != ""
  | none => false

/-- JavaScript truthiness of an optional numeric field: present and non-zero. -/
def truthyInt : Option Int → Bool
  | some n => n != 0
  | none => false

/-- JavaScript truthiness of an optional boolean field: present and true. -/
def truthyBool : Option Bool → Bool
  | some b => b
  | none => false

/-- The fields of a channel read by the embedded code (src/types Channel has
further fields, none of which the modelled functions inspect). -/
structure Channel where
  id : String
  is_active : Bool
  local_balance : Int
deriving DecidableEq

/-- CloseChannelArgs from src/types: every field is optional on the wire. -/
structure CloseChannelArgs where
  address : Option String := none
  id : Option String := none
  is_force_close : Option Bool := none
  is_graceful_close : Option Bool := none
  max_tokens_per_vbyte : Option Int := none
  public_key : Option String := none
  socket : Option String := none
  target_confirmations : Option Int := none
  tokens_per_vbyte : Option Int := none
  transaction_id : Option String := none
  transaction_vout : Option Int := none
deriving DecidableEq

/-- The parameter object LightningProvider.closeChannel passes to the backend
closeChannel call (minus the lnd handle).  A field is none exactly when the
key is absent from the constructed object; the source builds every key by
conditional spread, so the final delete-undefined sweep never removes
anything and absence is fully captured by the conditionals. -/
structure ClosePayload where
  address : Option String := none
  id : Option String := none
  is_force_close : Option Bool := none
  is_graceful_close : Option Bool := none
  max_tokens_per_vbyte : Option Int := none
  public_key : Option String := none
  socket : Option String := none
  target_confirmations : Option Int := none
  tokens_per_vbyte : Option Int := none
  transaction_id : Option String := none
  transaction_vout : Option Int := none
deriving DecidableEq

/-- LightningProvider.closeChannel (src/src/providers/lightning.ts lines
141-192): the identifier guard followed by construction of either the
force-close or the cooperative-close parameter object.  The returned payload
is the object handed to the backend closeChannel call; the error is the
message of the guard throw. -/
def closeChannelPayload (args : CloseChannelArgs) : Except String ClosePayload :=
  if !truthyStr args.id && !(truthyStr args.transaction_id && truthyInt args.transaction_vout) then
    Except.error "Either channel id or transaction details (id and vout) are required"
  else
    let base : ClosePayload :=
      { id := if truthyStr args.id then args.id else none
        transaction_id :=
          if truthyStr args.transaction_id && truthyInt args.transaction_vout then
            args.transaction_id else none
        transaction_vout :=
          if truthyStr args.transaction_id && truthyInt args.transaction_vout then
            args.transaction_vout else none }
    if truthyBool args.is_force_close then
      Except.ok
        { base with
          is_force_close := some true
          max_tokens_per_vbyte :=
            if truthyInt args.max_tokens_per_vbyte then args.max_tokens_per_vbyte else none
          tokens_per_vbyte :=
            if truthyInt args.tokens_per_vbyte then args.tokens_per_vbyte else none
          target_confirmations :=
            if truthyInt args.target_confirmations then args.target_confirmations else none }
    else
      Except.ok
        { base with
          is_force_close := some false
          is_graceful_close :=
            if truthyBool args.is_graceful_close then some true else none
          address := if truthyStr args.address then args.address else none
          max_tokens_per_vbyte :=
            if truthyInt args.max_tokens_per_vbyte then args.max_tokens_per_vbyte else none
          tokens_per_vbyte :=
            if truthyInt args.tokens_per_vbyte then args.tokens_per_vbyte else none
          target_confirmations :=
            if truthyInt args.target_confirmations then args.target_confirmations else none
          public_key := if truthyStr args.public_key then args.public_key else none
          socket := if truthyStr args.socket then args.socket else none }

/-- The sequence of backend closeChannel invocations made by one call of
LightningProvider.closeChannel: none when the guard throws first, exactly one
otherwise (the source reaches exactly one closeChannel call after the guard). -/
def closeChannelCalls (args : CloseChannelArgs) : List ClosePayload :=
  match closeChannelPayload args with
  | Except.error _ => []
  | Except.ok p => [p]

/-- Result type of the backend closeChannel call. -/
structure CloseChannelResult where
  transaction_id : String
  transaction_vout : Int
deriving DecidableEq

/-- LightningProvider.closeChannel including its catch clause (lines 195-198):
any error thrown inside the try block, whether the guard or the backend call,
is rethrown with the prefix given in the catch handler, preserving the
original message. -/
def closeChannelRun (args : CloseChannelArgs)
    (backend : ClosePayload → Except String CloseChannelResult) :
    Except String CloseChannelResult :=
  match closeChannelPayload args with
  | Except.error m => Except.error ("Failed to close channel: " ++ m)
  | Except.ok p =>
    match backend p with
    | Except.error m => Except.error ("Failed to close channel: " ++ m)
    | Except.ok r => Except.ok r

/-- Stable insertion of a channel into a list already sorted by descending
local_balance: the new element goes in front of the first element whose
balance does not exceed its own, so an earlier element is placed before
later elements with equal balance. -/
def insertDesc (c : Channel) : List Channel → List Channel
  | [] => [c]
  | h :: t => if h.local_balance ≤ c.local_balance then c :: h :: t else h :: insertDesc c t

/-- The stable descending sort by local_balance.  Array.prototype.sort with
comparator (a, b) => b.local_balance - a.local_balance is required by the
language standard to be a stable sort in this order, which determines the
output list uniquely; insertion from the right realises it. -/
def sortDesc : List Channel → List Channel
  | [] => []
  | h :: t => insertDesc h (sortDesc t)

/-- PayInvoiceAction.getAvalibleChannelId (src/src/actions/payInvoice.ts lines
27-65): filter the channels to the active ones, sort them by descending
local_balance, return the id of the first, or the empty string when no
active channel exists. -/
def getAvalibleChannelId (channels : List Channel) : String :=
  let filteredActiveChannels := channels.filter (fun channel => channel.is_active)
  let sortedChannels := sortDesc filteredActiveChannels
  match sortedChannels with
  | c :: _ => c.id
  | [] => ""

/-- Keep the left channel unless the right one has strictly greater
local_balance (the left-biased maximum). -/
def firstMaxStep (b d : Channel) : Channel :=
  if b.local_balance < d.local_balance then d else b

/-- The earliest channel of the list attaining the maximal local_balance. -/
def firstMax : List Channel → Option Channel
  | [] => none
  | c :: t => some (t.foldl firstMaxStep c)

/-- Specification-side selection rule, written from the words of the spec:
the channel with the greatest local_balance among the active channels,
earliest first.  Compared against getAvalibleChannelId below. -/
def firstMaxActive (channels : List Channel) : Option Channel :=
  firstMax (channels.filter (fun c => c.is_active))

/-- The fields of PayArgs that the embedded code reads or forwards (the
remaining optional fields of src/types PayArgs travel through the same
object spread untouched). -/
structure PayArgs where
  request : Option String := none
  outgoing_channel : Option String := none
  max_fee : Option Int := none
  tokens : Option Int := none
deriving DecidableEq

/-- The requestArgs object PayInvoiceAction.payInvoice builds:
the spread sequence outgoing_channel-then-params lets a caller-supplied
outgoing_channel key overwrite the automatically selected one, while every
other field comes from params unchanged. -/
def payRequestArgs (oc : String) (params : PayArgs) : PayArgs :=
  { request := params.request
    outgoing_channel := some (params.outgoing_channel.getD oc)
    max_fee := params.max_fee
    tokens := params.tokens }

/-- Result fields of the backend pay call used by the embedded code. -/
structure PayResult where
  id : String
  is_confirmed : Bool
  tokens : Int
  fee : Int
deriving DecidableEq

/-- The ExtendedPayResult returned by PayInvoiceAction.payInvoice: the
backend result together with the outgoing_channel field the action adds. -/
structure ExtendedPayResult where
  id : String
  is_confirmed : Bool
  tokens : Int
  fee : Int
  outgoing_channel : String
deriving DecidableEq

/-- PayInvoiceAction.payInvoice (src/src/actions/payInvoice.ts lines 67-113):
select a channel, fail when none is available, otherwise dispatch the merged
requestArgs to the backend (the abstracted provider payInvoice) and return
its result extended with the automatically selected channel id. -/
def payInvoiceRun (channels : List Channel) (params : PayArgs)
    (backend : PayArgs → Except String PayResult) : Except String ExtendedPayResult :=
  let oc := getAvalibleChannelId channels
  if oc == "" then Except.error "no avalible channel"
  else
    match backend (payRequestArgs oc params) with
    | Except.error e => Except.error e
    | Except.ok r =>
      Except.ok
        { id := r.id, is_confirmed := r.is_confirmed, tokens := r.tokens, fee := r.fee
          outgoing_channel := oc }

/-- The sequence of backend pay invocations made by one PayInvoiceAction.payInvoice
call: none when channel selection fails (the throw happens before the
dispatch), exactly one otherwise. -/
def payInvoiceCalls (channels : List Channel) (params : PayArgs) : List PayArgs :=
  let oc := getAvalibleChannelId channels
  if oc == "" then [] else [payRequestArgs oc params]

/-- The fields of OpenChannelArgs the embedded code reads, each optional here
because the guard itself must observe absence (local_tokens and
partner_public_key are required by the guard, not by construction). -/
structure OpenChannelArgs where
  local_tokens : Option Int := none
  partner_public_key : Option String := none
  partner_socket : Option String := none
  cooperative_close_address : Option String := none
deriving DecidableEq

/-- One chain address entry as returned by getChainAddresses. -/
structure ChainAddress where
  address : String
  is_change : Bool
  tokens : Int
deriving DecidableEq

/-- The parameter object LightningProvider.openChannel spreads into the
backend openChannel call, after the cooperative_close_address fallback has
possibly been written into args. -/
structure OpenPayload where
  local_tokens : Option Int := none
  partner_public_key : Option String := none
  partner_socket : Option String := none
  cooperative_close_address : Option String := none
deriving DecidableEq

/-- LightningProvider.openChannel (src/src/providers/lightning.ts lines
216-239): guard on local_tokens and partner_public_key, then, when the
cooperative_close_address is falsy, look up the first chain address whose
is_change flag is false and write it into args before spreading args into
the backend call; when no such address exists args is left unchanged.  The
addresses argument stands for the getChainAddresses response. -/
def openChannelPayload (args : OpenChannelArgs) (addresses : List ChainAddress) :
    Except String OpenPayload :=
  if !truthyInt args.local_tokens || !truthyStr args.partner_public_key then
    Except.error "local_tokens and partner_public_key are required"
  else
    let coop : Option String :=
      if truthyStr args.cooperative_close_address then args.cooperative_close_address
      else
        match addresses.find? (fun addr => !addr.is_change) with
        | some mainAddress => some mainAddress.address
        | none => args.cooperative_close_address
    Except.ok
      { local_tokens := args.local_tokens
        partner_public_key := args.partner_public_key
        partner_socket := args.partner_socket
        cooperative_close_address := coop }

/-- The fields of CreateInvoiceArgs the embedded code reads or forwards. -/
structure CreateInvoiceArgs where
  tokens : Option Int := none
  description : Option String := none
deriving DecidableEq

/-- CreateInvoiceAction.createInvoice (actions/createInvoice.ts): reject a
falsy tokens field with the guard throw, otherwise forward params unchanged
to the provider createInvoice call. -/
def createInvoiceAct (params : CreateInvoiceArgs) : Except String CreateInvoiceArgs :=
  if !truthyInt params.tokens then Except.error "tokens is required."
  else Except.ok params

/-- The lndProvider.get read path (src/src/providers/lightning.ts lines
287-303): fetch the node identity and the channel list, format the summary
string; the catch clause around the whole body logs any error and returns
null, modelled as none.  The two Except arguments stand for the identity and
channel backend reads. -/
def lndProviderGet (agentName : Option String) (identityRes : Except String String)
    (channelsRes : Except String (List Channel)) : Option String :=
  match identityRes with
  | Except.error _ => none
  | Except.ok nodePubkey =>
    match channelsRes with
    | Except.error _ => none
    | Except.ok channels =>
      let name := match agentName with
        | some s => if s != "" then s else "The agent"
        | none => "The agent"
      some (name ++ "\x27s Lightning Node publickey: " ++ nodePubkey ++
        "\nChannel count: " ++ toString channels.length)

theorem insertDesc_head (c : Channel) (l : List Channel) :
    (insertDesc c l).head? =
      some (match l.head? with
        | none => c
        | some h => if h.local_balance ≤ c.local_balance then c else h) := by
  cases l with
  | nil => rfl
  | cons h t =>
    by_cases hb : h.local_balance ≤ c.local_balance
    · simp [insertDesc, hb]
    · simp [insertDesc, hb]

theorem firstMaxStep_assoc (b d m : Channel) :
    firstMaxStep (firstMaxStep b d) m = firstMaxStep b (firstMaxStep d m) := by
  by_cases h1 : b.local_balance < d.local_balance <;>
    by_cases h2 : d.local_balance < m.local_balance <;>
      by_cases h3 : b.local_balance < m.local_balance <;>
        simp [firstMaxStep, h1, h2, h3] <;> (exfalso; omega)

theorem foldl_firstMaxStep (t : List Channel) :
    ∀ b : Channel, t.foldl firstMaxStep b =
      (match firstMax t with
       | none => b
       | some m => firstMaxStep b m) := by
  induction t with
  | nil => intro b; rfl
  | cons d t ih =>
    intro b
    simp only [List.foldl, firstMax]
    rw [ih (firstMaxStep b d), ih d]
    cases hfm : firstMax t with
    | none => simp
    | some m => simp [firstMaxStep_assoc]

theorem sortDesc_head (l : List Channel) : (sortDesc l).head? = firstMax l := by
  induction l with
  | nil => rfl
  | cons c t ih =>
    simp only [sortDesc]
    rw [insertDesc_head, ih]
    show _ = some (t.foldl firstMaxStep c)
    rw [foldl_firstMaxStep t c]
    cases hfm : firstMax t with
    | none => simp
    | some m =>
      simp only
      by_cases h : m.local_balance ≤ c.local_balance
      · have hc : ¬ c.local_balance < m.local_balance := by omega
        simp [firstMaxStep, h, hc]
      · have hc : c.local_balance < m.local_balance := by omega
        simp [firstMaxStep, h, hc]

/-- C4: outbound channel selection is deterministic and returns the id of the
channel with the greatest local_balance among the active channels; on ties
between equal balances the stable sort keeps the earliest channel of the
input list, so the tie is broken by input position, not by lowest id. -/
theorem getAvalibleChannelId_selects_first_max (channels : List Channel) :
    getAvalibleChannelId channels = ((firstMaxActive channels).map Channel.id).getD "" ∧
    getAvalibleChannelId
      [{ id := "A", is_active := true, local_balance := 500 },
       { id := "B", is_active := true, local_balance := 900 },
       { id := "C", is_active := false, local_balance := 2000 }] = "B" := by
  refine ⟨?_, by decide⟩
  have h := sortDesc_head (channels.filter (fun c => c.is_active))
  simp only [getAvalibleChannelId, firstMaxActive]
  cases hs : sortDesc (channels.filter (fun c => c.is_active)) with
  | nil =>
    rw [hs] at h
    simp [← h]
  | cons c rest =>
    rw [hs] at h
    simp [← h]

/-- C4 counterexample: two active channels with equal local_balance, the one
with the greater id first in the registry; selection returns the first one,
not the one with the lowest id. -/
theorem getAvalibleChannelId_tie_input_order :
    getAvalibleChannelId
      [{ id := "B", is_active := true, local_balance := 500 },
       { id := "A", is_active := true, local_balance := 500 }] = "B" ∧
    getAvalibleChannelId
      [{ id := "B", is_active := true, local_balance := 500 },
       { id := "A", is_active := true, local_balance := 500 }] ≠ "A" := by
  constructor
  · rfl
  · decide

/-- C1: every close request whose is_force_close field is set to true that
reaches the backend does so with a parameter object containing no address,
public_key, socket or is_graceful_close field, whatever the caller supplied. -/
theorem closeChannel_forceClose_strips_coop_fields (args : CloseChannelArgs) (p : ClosePayload)
    (hf : args.is_force_close = some true)
    (hp : closeChannelPayload args = Except.ok p) :
    p.address = none ∧ p.public_key = none ∧ p.socket = none ∧ p.is_graceful_close = none := by
  simp only [closeChannelPayload, hf, truthyBool] at hp
  split at hp
  · exact absurd hp (by simp)
  · simp only [if_true] at hp
    cases hp
    exact ⟨rfl, rfl, rfl, rfl⟩

theorem closeChannel_forceClose_strips_coop_fields_witness :
    ({ transaction_id := some "tx1", transaction_vout := some (1 : Int),
       is_force_close := some true } : ClosePayload).address = none ∧
    ({ transaction_id := some "tx1", transaction_vout := some (1 : Int),
       is_force_close := some true } : ClosePayload).public_key = none ∧
    ({ transaction_id := some "tx1", transaction_vout := some (1 : Int),
       is_force_close := some true } : ClosePayload).socket = none ∧
    ({ transaction_id := some "tx1", transaction_vout := some (1 : Int),
       is_force_close := some true } : ClosePayload).is_graceful_close = none :=
  closeChannel_forceClose_strips_coop_fields
    { transaction_id := some "tx1", transaction_vout := some 1,
      is_force_close := some true, address := some "bc1qaddr",
      public_key := some "02pk", socket := some "host:9735" }
    _ rfl rfl

/-- C2: the close request carrying transaction_id tx1, transaction_vout 0,
is_force_close true and an address is rejected by the identifier guard,
because the truthiness test treats the vout value 0 as missing; no backend
payload is constructed, contrary to the documented scenario. -/
theorem closeChannel_vout_zero_guard_bug :
    closeChannelPayload
      { transaction_id := some "tx1", transaction_vout := some 0,
        is_force_close := some true, address := some "bc1qaddr" } =
      Except.error "Either channel id or transaction details (id and vout) are required" ∧
    closeChannelCalls
      { transaction_id := some "tx1", transaction_vout := some 0,
        is_force_close := some true, address := some "bc1qaddr" } = [] := by
  constructor <;> rfl

/-- C3 (amended): a close request that carries neither a truthy channel id
nor a complete truthy transaction_id and transaction_vout pair fails with
the invalid-argument guard error and makes no backend call, and those are
the only requests that fail this way; at least one identifier form is
required, not exactly one, since a request carrying both forms is accepted. -/
theorem closeChannel_identifier_guard (args : CloseChannelArgs) :
    (truthyStr args.id = false ∧
      (truthyStr args.transaction_id && truthyInt args.transaction_vout) = false) ↔
    (closeChannelPayload args =
        Except.error "Either channel id or transaction details (id and vout) are required" ∧
      closeChannelCalls args = []) := by
  constructor
  · rintro ⟨h1, h2⟩
    have hg : (!truthyStr args.id &&
        !(truthyStr args.transaction_id && truthyInt args.transaction_vout)) = true := by
      rw [h1, h2]
      rfl
    unfold closeChannelCalls closeChannelPayload
    rw [hg]
    simp
  · intro hres
    by_contra hcon
    have hg : (!truthyStr args.id &&
        !(truthyStr args.transaction_id && truthyInt args.transaction_vout)) = false := by
      cases h1 : truthyStr args.id with
      | true => rfl
      | false =>
        cases h2 : (truthyStr args.transaction_id && truthyInt args.transaction_vout) with
        | true => rfl
        | false => exact absurd ⟨h1, h2⟩ hcon
    have hok : closeChannelPayload args ≠
        Except.error "Either channel id or transaction details (id and vout) are required" := by
      unfold closeChannelPayload
      rw [hg]
      simp only [Bool.false_eq_true, if_false]
      split <;> simp
    exact hok hres.1

theorem closeChannel_identifier_guard_witness :
    closeChannelPayload {} =
      Except.error "Either channel id or transaction details (id and vout) are required" ∧
    closeChannelCalls {} = [] :=
  (closeChannel_identifier_guard {}).mp (by decide)

/-- C3 counterexample: a request carrying both a channel id and a complete
transaction pair is accepted and both identifiers are forwarded, so the
contract does not require exactly one identifier form. -/
theorem closeChannel_both_identifiers_accepted :
    closeChannelPayload
      { id := some "chan1", transaction_id := some "tx1", transaction_vout := some 1 } =
      Except.ok
        { id := some "chan1", transaction_id := some "tx1",
          transaction_vout := some (1 : Int), is_force_close := some false } := by
  rfl

/-- C7 (amended): in a cooperative close, every conditionally spread optional
field the caller omitted is absent from the backend payload, never null; but
a field the caller set to a falsy value, such as false or zero, is treated
exactly like an omitted field and is also absent, and the is_force_close
field is always present as false even when the caller omitted it. -/
theorem closeChannel_coop_falsy_fields_omitted (args : CloseChannelArgs) (p : ClosePayload)
    (hf : truthyBool args.is_force_close = false)
    (hp : closeChannelPayload args = Except.ok p) :
    (args.address = none → p.address = none) ∧
    (args.public_key = none → p.public_key = none) ∧
    (args.socket = none → p.socket = none) ∧
    (args.is_graceful_close = none → p.is_graceful_close = none) ∧
    (args.max_tokens_per_vbyte = none → p.max_tokens_per_vbyte = none) ∧
    (args.tokens_per_vbyte = none → p.tokens_per_vbyte = none) ∧
    (args.target_confirmations = none → p.target_confirmations = none) ∧
    (args.is_graceful_close = some false → p.is_graceful_close = none) ∧
    (args.tokens_per_vbyte = some 0 → p.tokens_per_vbyte = none) ∧
    (args.target_confirmations = some 0 → p.target_confirmations = none) ∧
    p.is_force_close = some false := by
  simp only [closeChannelPayload, hf] at hp
  split at hp
  · exact absurd hp (by simp)
  · simp only [Bool.false_eq_true, if_false] at hp
    cases hp
    refine ⟨?_, ?_, ?_, ?_, ?_, ?_, ?_, ?_, ?_, ?_, rfl⟩ <;>
      intro ha <;> simp [ha, truthyStr, truthyInt, truthyBool]

theorem closeChannel_coop_falsy_fields_omitted_witness :
    (({ id := some "chan1", is_force_close := some false } : CloseChannelArgs).address = none →
      ({ id := some "chan1", is_force_close := some false } : ClosePayload).address = none) ∧
    (({ id := some "chan1", is_force_close := some false } : CloseChannelArgs).public_key = none →
      ({ id := some "chan1", is_force_close := some false } : ClosePayload).public_key = none) ∧
    (({ id := some "chan1", is_force_close := some false } : CloseChannelArgs).socket = none →
      ({ id := some "chan1", is_force_close := some false } : ClosePayload).socket = none) ∧
    (({ id := some "chan1", is_force_close := some false } : CloseChannelArgs).is_graceful_close = none →
      ({ id := some "chan1", is_force_close := some false } : ClosePayload).is_graceful_close = none) ∧
    (({ id := some "chan1", is_force_close := some false } : CloseChannelArgs).max_tokens_per_vbyte = none →
      ({ id := some "chan1", is_force_close := some false } : ClosePayload).max_tokens_per_vbyte = none) ∧
    (({ id := some "chan1", is_force_close := some false } : CloseChannelArgs).tokens_per_vbyte = none →
      ({ id := some "chan1", is_force_close := some false } : ClosePayload).tokens_per_vbyte = none) ∧
    (({ id := some "chan1", is_force_close := some false } : CloseChannelArgs).target_confirmations = none →
      ({ id := some "chan1", is_force_close := some false } : ClosePayload).target_confirmations = none) ∧
    (({ id := some "chan1", is_force_close := some false } : CloseChannelArgs).is_graceful_close = some false →
      ({ id := some "chan1", is_force_close := some false } : ClosePayload).is_graceful_close = none) ∧
    (({ id := some "chan1", is_force_close := some false } : CloseChannelArgs).tokens_per_vbyte = some 0 →
      ({ id := some "chan1", is_force_close := some false } : ClosePayload).tokens_per_vbyte = none) ∧
    (({ id := some "chan1", is_force_close := some false } : CloseChannelArgs).target_confirmations = some 0 →
      ({ id := some "chan1", is_force_close := some false } : ClosePayload).target_confirmations = none) ∧
    ({ id := some "chan1", is_force_close := some false } : ClosePayload).is_force_close = some false :=
  closeChannel_coop_falsy_fields_omitted
    { id := some "chan1", is_force_close := some false } _ (by decide) rfl

/-- C7 counterexample: a cooperative close request whose caller explicitly
set is_graceful_close to false and tokens_per_vbyte to 0 produces exactly the
same backend payload as the request that omitted both fields, so an explicit
false or zero is not preserved as distinct from absence. -/
theorem closeChannel_zero_fields_indistinguishable :
    closeChannelPayload
      { id := some "chan1", is_graceful_close := some false, tokens_per_vbyte := some 0 } =
      closeChannelPayload { id := some "chan1" } ∧
    ({ id := some "chan1", is_graceful_close := some false,
       tokens_per_vbyte := some 0 } : CloseChannelArgs) ≠
      { id := some "chan1" } := by
  constructor
  · rfl
  · decide

/-- C5: when the channel set holds no active channel, payInvoice fails with
the no-available-channel error and the backend pay call is never invoked,
whatever the backend would have answered. -/
theorem payInvoice_no_active_channels (channels : List Channel) (params : PayArgs)
    (backend : PayArgs → Except String PayResult)
    (h : ∀ c ∈ channels, c.is_active = false) :
    payInvoiceRun channels params backend = Except.error "no avalible channel" ∧
    payInvoiceCalls channels params = [] := by
  have hfil : channels.filter (fun c => c.is_active) = [] := by
    rw [List.filter_eq_nil_iff]
    intro c hc
    simp [h c hc]
  have hid : getAvalibleChannelId channels = "" := by
    simp [getAvalibleChannelId, hfil, sortDesc]
  constructor <;> simp [payInvoiceRun, payInvoiceCalls, hid]

theorem payInvoice_no_active_channels_witness :
    payInvoiceRun
      [{ id := "C", is_active := false, local_balance := 2000 }]
      { request := some "lnbc1invoice" }
      (fun _ => Except.ok { id := "pay1", is_confirmed := true, tokens := 10, fee := 1 }) =
      Except.error "no avalible channel" ∧
    payInvoiceCalls
      [{ id := "C", is_active := false, local_balance := 2000 }]
      { request := some "lnbc1invoice" } = [] :=
  payInvoice_no_active_channels _ _ _ (by decide)

/-- C6: an open request without a cooperative_close_address (given truthy
local_tokens and partner_public_key, which the earlier guard requires)
queries the chain addresses and sets cooperative_close_address to the
address of the first entry whose is_change flag is false; when no such entry
exists the open proceeds with no cooperative_close_address rather than
failing. -/
theorem openChannel_coop_address_fallback (args : OpenChannelArgs) (addresses : List ChainAddress)
    (hlt : truthyInt args.local_tokens = true)
    (hpk : truthyStr args.partner_public_key = true)
    (hco : args.cooperative_close_address = none) :
    openChannelPayload args addresses =
      Except.ok
        { local_tokens := args.local_tokens
          partner_public_key := args.partner_public_key
          partner_socket := args.partner_socket
          cooperative_close_address :=
            (addresses.find? (fun addr => !addr.is_change)).map ChainAddress.address } := by
  unfold openChannelPayload
  rw [hlt, hpk]
  simp only [Bool.not_true, Bool.false_or, Bool.false_and, Bool.or_self, if_false,
    Bool.false_eq_true, hco, truthyStr]
  cases hfind : addresses.find? (fun addr => !addr.is_change) with
  | none => simp
  | some a => simp

theorem openChannel_coop_address_fallback_witness :
    openChannelPayload
      { local_tokens := some 100000, partner_public_key := some "02partner" }
      [{ address := "bc1qchange", is_change := true, tokens := 5 },
       { address := "bc1qmain", is_change := false, tokens := 7 }] =
      Except.ok
        { local_tokens := some 100000, partner_public_key := some "02partner"
          partner_socket := none, cooperative_close_address := some "bc1qmain" } := by
  have h := openChannel_coop_address_fallback
    { local_tokens := some 100000, partner_public_key := some "02partner" }
    [{ address := "bc1qchange", is_change := true, tokens := 5 },
     { address := "bc1qmain", is_change := false, tokens := 7 }]
    (by decide) (by decide) rfl
  rw [h]
  rfl

/-- C8 (amended): createInvoice fails with the tokens-required guard error,
before any backend call, exactly when the tokens amount is absent or zero;
in particular createInvoice with no tokens fails.  A present negative amount
is truthy and passes the local check unrejected. -/
theorem createInvoice_tokens_guard (params : CreateInvoiceArgs) :
    createInvoiceAct params = Except.error "tokens is required." ↔
      (params.tokens = none ∨ params.tokens = some 0) := by
  unfold createInvoiceAct
  cases ht : params.tokens with
  | none => simp [truthyInt]
  | some n =>
    by_cases hn : n = 0
    · subst hn
      simp [truthyInt]
    · simp [truthyInt, hn]

theorem createInvoice_tokens_guard_witness :
    createInvoiceAct {} = Except.error "tokens is required." :=
  (createInvoice_tokens_guard {}).mpr (Or.inl rfl)

/-- C8 counterexample: a createInvoice request with the negative amount -5
passes the local validation and is forwarded to the backend instead of
failing with the invalid-argument error. -/
theorem createInvoice_negative_tokens_accepted :
    createInvoiceAct { tokens := some (-5) } =
      Except.ok ({ tokens := some (-5) } : CreateInvoiceArgs) := by
  rfl

/-- C9 (amended): the provider operations rethrow a backend failure as a
typed error whose message embeds the backend detail string (shown here for
closeChannel, whose catch clause wraps both guard and backend errors), but
the status-summary read path lndProvider.get swallows every failure of its
two backend reads and returns null instead of surfacing it. -/
theorem backend_errors_surfacing (args : CloseChannelArgs) (p : ClosePayload) (e : String)
    (hp : closeChannelPayload args = Except.ok p)
    (agentName : Option String) (chans : Except String (List Channel)) (pk : String) :
    closeChannelRun args (fun _ => Except.error e) =
      Except.error ("Failed to close channel: " ++ e) ∧
    lndProviderGet agentName (Except.error e) chans = none ∧
    lndProviderGet agentName (Except.ok pk) (Except.error e) = none := by
  refine ⟨?_, rfl, rfl⟩
  simp [closeChannelRun, hp]

theorem backend_errors_surfacing_witness :
    closeChannelRun { id := some "chan1" } (fun _ => Except.error "backend down") =
      Except.error ("Failed to close channel: " ++ "backend down") ∧
    lndProviderGet (some "Agent") (Except.error "backend down") (Except.ok []) = none ∧
    lndProviderGet (some "Agent") (Except.ok "02pk") (Except.error "backend down") = none :=
  backend_errors_surfacing { id := some "chan1" }
    { id := some "chan1", is_force_close := some false } "backend down" rfl
    (some "Agent") (Except.ok []) "02pk"

/-- C9 counterexample: a backend failure on the identity read of the
status-summary provider path is mapped to the null result, so the core does
silently swallow this backend error rather than surfacing it to the caller. -/
theorem lndProviderGet_swallows_error :
    lndProviderGet (some "Agent") (Except.error "connection refused") (Except.ok []) = none := by
  rfl

/-- C10: when the pay parameters themselves carry an outgoing_channel field,
the request dispatched to the backend keeps the caller-supplied value, since
the params spread overwrites the automatically selected channel, while the
returned receipt reports the automatically selected channel id in its
outgoing_channel field, not the channel actually requested. -/
theorem payInvoice_outgoing_channel_override (channels : List Channel) (params : PayArgs)
    (v : String) (r : PayResult)
    (hv : params.outgoing_channel = some v)
    (hoc : getAvalibleChannelId channels ≠ "") :
    payInvoiceCalls channels params =
      [payRequestArgs (getAvalibleChannelId channels) params] ∧
    (payRequestArgs (getAvalibleChannelId channels) params).outgoing_channel = some v ∧
    payInvoiceRun channels params (fun _ => Except.ok r) =
      Except.ok
        { id := r.id, is_confirmed := r.is_confirmed, tokens := r.tokens, fee := r.fee
          outgoing_channel := getAvalibleChannelId channels } := by
  have hb : (getAvalibleChannelId channels == "") = false := by
    simp only [beq_eq_false_iff_ne, ne_eq]
    exact hoc
  refine ⟨?_, ?_, ?_⟩
  · simp [payInvoiceCalls, hb]
  · simp [payRequestArgs, hv]
  · simp [payInvoiceRun, hb]

theorem payInvoice_outgoing_channel_override_witness :
    payInvoiceCalls
      [{ id := "chanA", is_active := true, local_balance := 700 }]
      { request := some "lnbc1invoice", outgoing_channel := some "chanX" } =
      [payRequestArgs
        (getAvalibleChannelId [{ id := "chanA", is_active := true, local_balance := 700 }])
        { request := some "lnbc1invoice", outgoing_channel := some "chanX" }] ∧
    (payRequestArgs
        (getAvalibleChannelId [{ id := "chanA", is_active := true, local_balance := 700 }])
        { request := some "lnbc1invoice", outgoing_channel := some "chanX" }).outgoing_channel =
      some "chanX" ∧
    payInvoiceRun
      [{ id := "chanA", is_active := true, local_balance := 700 }]
      { request := some "lnbc1invoice", outgoing_channel := some "chanX" }
      (fun _ => Except.ok { id := "pay1", is_confirmed := true, tokens := 10, fee := 1 }) =
      Except.ok
        { id := "pay1", is_confirmed := true, tokens := 10, fee := 1
          outgoing_channel :=
            getAvalibleChannelId [{ id := "chanA", is_active := true, local_balance := 700 }] } :=
  payInvoice_outgoing_channel_override
    [{ id := "chanA", is_active := true, local_balance := 700 }]
    { request := some "lnbc1invoice", outgoing_channel := some "chanX" }
    "chanX" { id := "pay1", is_confirmed := true, tokens := 10, fee := 1 }
    rfl (by decide)

end PluginLightning
